import Mathlib

/-
Shallow embedding of the autograding test runner (src/runner.ts).

The runner executes each test spec in sequence: an optional setup command,
the graded run command (with a wall-clock timeout budget shared between the
two), a comparison of the captured output against the expected output, and
the collection of a per-test feedback file, assembling a TestResult per test
and a suite-level report.

Subprocess execution, wall clocks and the filesystem are external effects;
they are modelled by an explicit per-test world (TestWorld) that records how
each external interaction would turn out, and the stateful try/catch control
flow of the runner is modelled by explicit state passing over Except.
JavaScript number/string truthiness tests that appear in the source are
modelled by explicit truthiness functions.
-/

/-- Truthiness of the JavaScript expression where an optional number is used
as a condition: undefined and 0 are falsy, every other number is truthy.
Used for every occurrence of the patterns with test.points in the source. -/
def jsTruthyNum : Option Int → Bool
  | none => false
  | some v => v != 0

/-- Truthiness of a JavaScript string used as a condition: only the empty
string is falsy. -/
def jsTruthyStr (s : String) : Bool := s != ""

/-- The JavaScript pattern of an optional string s with a fallback to null:
undefined and the empty string both give null. Used for the content field of
a TestResult. -/
def jsStrOrNull : Option String → Option String
  | none => none
  | some f => if f = "" then none else some f

/-- Boolean test that pat is a prefix of l (character lists). -/
def isPrefixChars : List Char → List Char → Bool
  | [], _ => true
  | _ :: _, [] => false
  | c :: cs, d :: ds => c == d && isPrefixChars cs ds

/-- Boolean test that pat occurs as a contiguous sublist of l. -/
def includesChars : List Char → List Char → Bool
  | [], pat => isPrefixChars pat []
  | c :: rest, pat => isPrefixChars pat (c :: rest) || includesChars rest pat

/-- The JavaScript string method includes: pat occurs as a contiguous
substring of s. Used both for the included comparison mode and for the
ETIMEDOUT test on error messages. -/
def strIncludes (s pat : String) : Bool := includesChars s.data pat.data

/-- A test specification, from the Test interface of the source. The
comparison field has the string union type TestComparison in the source;
it is embedded as a plain string so that the runtime default branch of
compareOutput is expressible. The timeout is in minutes; points may be
absent. Numbers are embedded as integers. -/
structure Test where
  name : String
  setup : String
  run : String
  input : Option String
  output : Option String
  timeout : Int
  points : Option Int
  comparison : String
deriving Repr, DecidableEq

/-- Outcome of one synchronous subprocess invocation (execSync): either it
returns captured standard output, or it throws an Error carrying a message.
A timeout is signalled by ETIMEDOUT occurring in that message. -/
inductive ExecBehavior where
  | success (stdout : String)
  | throws (message : String)
deriving Repr, DecidableEq

/-- The record returned by executeTest in the source: two optional fields,
of which the source populates exactly one. -/
structure ExecutionOutcome where
  output : Option String
  error : Option String
deriving Repr, DecidableEq

/-- Whitespace for the purposes of the JavaScript string trim method. -/
def isJsSpace (c : Char) : Bool :=
  c == ' ' || c == '\t' || c == '\n' || c == '\r' || c == '\x0b' || c == '\x0c'

/-- Drop leading whitespace characters. -/
def dropLeadingSpace : List Char → List Char
  | [] => []
  | c :: rest => if isJsSpace c then dropLeadingSpace rest else c :: rest

/-- The JavaScript string trim method: remove leading and trailing
whitespace. -/
def strTrim (s : String) : String :=
  ⟨(dropLeadingSpace (dropLeadingSpace s.data).reverse).reverse⟩

/-- The distinguished message substituted for timeout failures. -/
def timeoutMessage : String := "Command was killed due to timeout"

/-- executeTest from the source: runs the test command and returns captured
trimmed output or an error message, never throwing. The command, stdin
input, timeout, working directory and feedback path only influence the
subprocess itself, which is represented by the ExecBehavior argument.
On a throw, a message containing ETIMEDOUT is replaced by the distinguished
timeout message; any other message is passed through. -/
def executeTest (b : ExecBehavior) : ExecutionOutcome :=
  match b with
  | .success stdout => { output := some (strTrim stdout), error := none }
  | .throws m =>
      { output := none,
        error := some (if strIncludes m "ETIMEDOUT" then timeoutMessage else m) }

/-- The message of the Error thrown by compareOutput for an unknown mode. -/
def invalidComparisonMessage (method : String) : String :=
  "Invalid comparison method: " ++ method

/-- compareOutput from the source. The regex mode delegates to the
JavaScript regular expression engine: regexCompile expected stands for the
constructor call building a regular expression from expected, which either
throws a SyntaxError carrying a message (invalid pattern) or yields the
total unanchored match test of the compiled expression. A mode outside the
three known ones throws; both throws are modelled as the error branch of
Except. -/
def compareOutput (regexCompile : String → Except String (String → Bool))
    (output expected : String) (method : String) : Except String Bool :=
  match method with
  | "exact" => .ok (output == expected)
  | "included" => .ok (strIncludes output expected)
  | "regex" =>
      match regexCompile expected with
      | .error m => .error m
      | .ok matcher => .ok (matcher output)
  | _ => .error (invalidComparisonMessage method)

/-- The per-test result record assembled by runTest. The execution_time
field of the source is a string of seconds when the run phase was reached
and the number 0 otherwise; it is embedded as an optional elapsed
millisecond count, none standing for the numeric 0 fallback. -/
structure TestResult where
  name : String
  status : String
  err_message : Option String
  content : Option String
  test_code : String
  filename : String
  line_no : Nat
  execution_time : Option Int
  score : Option Int
deriving Repr, DecidableEq

/-- The external world of one test: how each external interaction of runTest
would turn out. setupThrows is the outcome of the setup command (none means
it exits 0, some m means it throws an Error with message m); setupElapsed is
the wall-clock time the setup took in milliseconds; uuid is the fresh
identifier drawn for the feedback file name; runBehavior is the outcome of
the run command as a function of the timeout budget it is granted;
runElapsed is the measured wall clock of the run phase; runWritesFeedback is
the content the run command leaves in the feedback file (none means the file
is never created); regexCompile is the regular expression constructor, which
throws on an invalid pattern and otherwise yields the compiled matcher. -/
structure TestWorld where
  setupThrows : Option String
  setupElapsed : Int
  uuid : String
  runBehavior : Int → ExecBehavior
  runElapsed : Int
  runWritesFeedback : Option String
  regexCompile : String → Except String (String → Bool)

/-- The total per-test budget in milliseconds: the declared timeout in
minutes times 60 times 1000. -/
def totalBudgetMs (test : Test) : Int := test.timeout * 60 * 1000

/-- The budget handed to the run phase: when a setup command ran, the
elapsed setup time is subtracted from the total budget with no floor;
otherwise the full budget. -/
def runPhaseBudget (test : Test) (w : TestWorld) : Int :=
  if jsTruthyStr test.setup then totalBudgetMs test - w.setupElapsed
  else totalBudgetMs test

/-- The mutable locals of runTest, threaded explicitly, together with the
state of the feedback file on disk (fs). -/
structure RunState where
  status : String
  err_message : Option String
  score : Option Int
  feedback : Option String
  execution_time : Option Int
  fs : Option String
deriving Repr, DecidableEq

/-- The optimistic initial score: the declared points with the JavaScript
fallback of null for a falsy value. -/
def initScore (p : Option Int) : Option Int :=
  if jsTruthyNum p then p else none

/-- The initial values of the locals of runTest: status pass, no error, the
optimistic score of the declared points with the JavaScript fallback to
null, no feedback, no execution time, no feedback file on disk. -/
def initState (test : Test) : RunState :=
  { status := "pass", err_message := none,
    score := initScore test.points,
    feedback := none, execution_time := none, fs := none }

/-- The score assigned on a failing or erroring comparison outcome: 0 when
points are truthy, null otherwise. -/
def failScore (p : Option Int) : Option Int :=
  if jsTruthyNum p then some 0 else none

/-- Setup phase of runTest: when the setup string is truthy the setup
command runs inside the try block and may throw; on success the elapsed
time is subtracted from the budget. Returns the remaining budget for the
run phase or the thrown message. -/
def setupPhase (test : Test) (w : TestWorld) : Except String Int :=
  if jsTruthyStr test.setup then
    match w.setupThrows with
    | some m => .error m
    | none => .ok (totalBudgetMs test - w.setupElapsed)
  else .ok (totalBudgetMs test)

/-- The mismatch message embeds the raw output variable, which JavaScript
renders as the string undefined when the run produced no output. -/
def mismatchMessage : Option String → String
  | some s => "Output does not match expected. Got: " ++ s
  | none => "Output does not match expected. Got: undefined"

/-- Compare stage of runTest: a truthy error from the run phase takes the
error branch without invoking the comparator; otherwise the comparator runs
on the captured output (empty-string fallback) and the expected output
(empty-string fallback), throwing on an unknown mode and marking the test
failed on a mismatch. -/
def comparePhase (test : Test) (w : TestWorld) (o : ExecutionOutcome)
    (st : RunState) : Except (String × RunState) RunState :=
  if jsTruthyStr (o.error.getD "") then
    .ok { st with status := "error", err_message := o.error,
                  score := failScore test.points }
  else
    match compareOutput w.regexCompile (o.output.getD "") (test.output.getD "")
        test.comparison with
    | .error m => .error (m, st)
    | .ok true => .ok st
    | .ok false =>
        .ok { st with status := "fail",
                      err_message := some (mismatchMessage o.output),
                      score := failScore test.points }

/-- The message of the Error thrown by a read of an absent file. -/
def enoentMessage (p : String) : String :=
  "ENOENT: no such file or directory, open " ++ p

/-- Feedback collection stage of runTest: read the feedback file, then
delete it when it exists. A read of an absent file throws. -/
def feedbackPhase (fp : String) (st : RunState) :
    Except (String × RunState) RunState :=
  match st.fs with
  | some content => .ok { st with feedback := some content, fs := none }
  | none => .error (enoentMessage fp, st)

/-- The locals right after the run phase: the elapsed wall clock has been
recorded and the run command has left its feedback file content on disk. -/
def preRunState (test : Test) (w : TestWorld) : RunState :=
  { initState test with
    execution_time := some w.runElapsed,
    fs := w.runWritesFeedback }

/-- The part of the try block after a successful setup: run the test
command with the remaining budget, compare, then collect feedback. -/
def runAfterSetup (test : Test) (fp : String) (w : TestWorld) (budget : Int) :
    Except (String × RunState) RunState :=
  match comparePhase test w (executeTest (w.runBehavior budget))
      (preRunState test w) with
  | .error e => .error e
  | .ok st2 => feedbackPhase fp st2

/-- The try block of runTest: setup, run, compare, feedback collection, in
that order, each able to throw, carrying the locals at the moment of the
throw. -/
def runTryBlock (test : Test) (fp : String) (w : TestWorld) :
    Except (String × RunState) RunState :=
  match setupPhase test w with
  | .error m => .error (m, initState test)
  | .ok budget => runAfterSetup test fp w budget

/-- The feedback file path allocated inside the feedback directory from a
fresh identifier. -/
def feedbackFilePath (dir uuid : String) : String :=
  dir ++ "/grading_feedback_" ++ uuid ++ ".md"

/-- runTest from the source: runs one test in the given feedback directory
against the given world, producing the TestResult together with the final
state of the feedback file on disk. The catch-all handler turns any thrown
message into status error, keeping every other local at its value at the
moment of the throw. The working directory only influences the
subprocesses, which the world already represents. -/
def runTest (test : Test) (dir : String) (w : TestWorld) :
    TestResult × Option String :=
  let fp := feedbackFilePath dir w.uuid
  let st :=
    match runTryBlock test fp w with
    | .ok st => st
    | .error (m, st) => { st with status := "error", err_message := some m }
  ({ name := test.name,
     status := st.status,
     err_message := st.err_message,
     content := jsStrOrNull st.feedback,
     test_code := test.run ++ " <stdin>" ++ test.input.getD "",
     filename := "",
     line_no := 0,
     execution_time := st.execution_time,
     score := st.score }, st.fs)

/-- createFeedbackDir from the source: the feedback directory under the
runner temporary root, falling back to /tmp. -/
def createFeedbackDir (tmpEnv : Option String) : String :=
  (tmpEnv.getD "/tmp") ++ "/_autograding_feedback"

/-- The mutable locals of the suite loop in runAll. -/
structure SuiteState where
  accumulatedPoints : Int
  availablePoints : Int
  hasPoints : Bool
  status : String
  testResults : List TestResult

/-- The initial suite loop state. -/
def initialSuiteState : SuiteState :=
  { accumulatedPoints := 0, availablePoints := 0, hasPoints := false,
    status := "pass", testResults := [] }

/-- One iteration of the suite loop of runAll: truthy points widen the
available total and set the points flag, the test runs, its result is
appended, truthy points accumulate the earned score with a fallback of 0,
and any non-pass result flips the suite status to error. -/
def suiteStep (dir : String) (s : SuiteState) (tw : Test × TestWorld) :
    SuiteState :=
  let test := tw.1
  let s1 := if jsTruthyNum test.points then
      { s with hasPoints := true,
               availablePoints := s.availablePoints + test.points.getD 0 }
    else s
  let result := (runTest test dir tw.2).1
  let s2 := { s1 with testResults := s1.testResults ++ [result] }
  let s3 := if jsTruthyNum test.points then
      { s2 with accumulatedPoints :=
                  s2.accumulatedPoints + result.score.getD 0 }
    else s2
  if result.status != "pass" then { s3 with status := "error" } else s3

/-- The suite report serialized at the end of runAll. -/
structure SuiteReport where
  version : Nat
  status : String
  max_score : Int
  tests : List TestResult

/-- Everything runAll emits: the serialized report, the points flag, the
two point totals, and the points summary line that is emitted only when
some test declared truthy points. -/
structure SuiteOutput where
  report : SuiteReport
  hasPoints : Bool
  accumulatedPoints : Int
  availablePoints : Int
  pointsSummary : Option String

/-- runAll from the source: create the feedback directory, fold the suite
loop over the tests in order, and assemble the outputs. Each test is paired
with its world. -/
def runAll (tmpEnv : Option String) (tests : List (Test × TestWorld)) :
    SuiteOutput :=
  let dir := createFeedbackDir tmpEnv
  let s := List.foldl (suiteStep dir) initialSuiteState tests
  { report := { version := 0, status := s.status,
                max_score := s.availablePoints, tests := s.testResults },
    hasPoints := s.hasPoints,
    accumulatedPoints := s.accumulatedPoints,
    availablePoints := s.availablePoints,
    pointsSummary :=
      if s.hasPoints then
        some ("Points " ++ toString s.accumulatedPoints ++ "/" ++
              toString s.availablePoints)
      else none }

/-- A world in which every external interaction succeeds: the setup exits 0
instantly, the run command prints hi within budget, and a feedback file is
written. -/
def sampleWorld : TestWorld :=
  { setupThrows := none, setupElapsed := 0, uuid := "u",
    runBehavior := fun _ => .success "hi", runElapsed := 100,
    runWritesFeedback := some "well done",
    regexCompile := fun _ => .ok (fun _ => false) }

/-- A five-point test with no setup whose expected output is hi. -/
def passTest : Test :=
  { name := "t1", setup := "", run := "echo hi", input := none,
    output := some "hi", timeout := 1, points := some 5,
    comparison := "exact" }

/-- The same test with a setup command. -/
def setupFailTest : Test := { passTest with setup := "./setup.sh" }

/-- A world whose setup command throws. -/
def setupFailWorld : TestWorld :=
  { sampleWorld with setupThrows := some "Command failed: ./setup.sh" }

/-- A world whose run command never creates the feedback file. -/
def noFeedbackWorld : TestWorld :=
  { sampleWorld with runWritesFeedback := none }

/-- A world whose run command writes a zero-byte feedback file. -/
def emptyFeedbackWorld : TestWorld :=
  { sampleWorld with runWritesFeedback := some "" }

/-- A world whose setup command succeeds but takes 70 seconds. -/
def slowSetupWorld : TestWorld :=
  { sampleWorld with setupElapsed := 70000 }

/-- A test with points declared as 0. -/
def zeroPointsTest : Test := { passTest with points := some 0 }

/-- A test with no points field. -/
def noPointsTest : Test := { passTest with points := none }

/-- The message of the SyntaxError thrown by the regular expression
constructor on the pattern consisting of one opening parenthesis. -/
def syntaxErrorMessage : String :=
  "Invalid regular expression: /(/: Unterminated group"

/-- A test graded in regex mode whose expected output is an invalid
regular expression pattern. -/
def badRegexTest : Test :=
  { passTest with comparison := "regex", output := some "(" }

/-- A world whose regular expression constructor throws and whose run
command never creates the feedback file. -/
def badRegexWorld : TestWorld :=
  { sampleWorld with
    runWritesFeedback := none,
    regexCompile := fun _ => Except.error syntaxErrorMessage }

/-- The same world except the run command writes a zero-byte feedback
file. -/
def badRegexFeedbackWorld : TestWorld :=
  { badRegexWorld with runWritesFeedback := some "" }

lemma isPrefixChars_iff (pat : List Char) :
    ∀ l : List Char, isPrefixChars pat l = true ↔ ∃ post, l = pat ++ post := by
  induction pat with
  | nil =>
      intro l
      simp [isPrefixChars]
  | cons c cs ih =>
      intro l
      cases l with
      | nil => simp [isPrefixChars]
      | cons d ds =>
          simp only [isPrefixChars, Bool.and_eq_true, beq_iff_eq, ih ds,
            List.cons_append, List.cons.injEq]
          constructor
          · rintro ⟨rfl, post, rfl⟩
            exact ⟨post, rfl, rfl⟩
          · rintro ⟨post, h1, h2⟩
            exact ⟨h1.symm, post, h2⟩

lemma includesChars_iff (l : List Char) :
    ∀ pat : List Char,
      includesChars l pat = true ↔ ∃ pre post, l = pre ++ pat ++ post := by
  induction l with
  | nil =>
      intro pat
      simp only [includesChars, isPrefixChars_iff]
      constructor
      · rintro ⟨post, h⟩
        exact ⟨[], post, by simpa using h⟩
      · rintro ⟨pre, post, h⟩
        rcases List.append_eq_nil.mp h.symm with ⟨h1, h2⟩
        rcases List.append_eq_nil.mp h1 with ⟨h3, h4⟩
        exact ⟨[], by simp [h4]⟩
  | cons c rest ih =>
      intro pat
      simp only [includesChars, Bool.or_eq_true, isPrefixChars_iff, ih]
      constructor
      · rintro (⟨post, h⟩ | ⟨pre, post, h⟩)
        · exact ⟨[], post, by simpa using h⟩
        · exact ⟨c :: pre, post, by simp [h]⟩
      · rintro ⟨pre, post, h⟩
        cases pre with
        | nil => exact Or.inl ⟨post, by simpa using h⟩
        | cons c2 pre2 =>
            simp only [List.cons_append, List.cons.injEq] at h
            exact Or.inr ⟨pre2, post, h.2⟩

lemma strIncludes_iff (s pat : String) :
    strIncludes s pat = true ↔ ∃ pre post : String, s = pre ++ pat ++ post := by
  unfold strIncludes
  rw [includesChars_iff]
  constructor
  · rintro ⟨pre, post, h⟩
    refine ⟨⟨pre⟩, ⟨post⟩, String.ext ?_⟩
    simpa [String.data_append] using h
  · rintro ⟨pre, post, rfl⟩
    exact ⟨pre.data, post.data, by simp [String.data_append]⟩

/-- C3: compareOutput with mode exact is true iff the actual output equals
the expected output; with mode included it is true iff the expected output
occurs as a contiguous substring of the actual output; with mode regex it
is true iff the expected pattern compiles and the compiled expression
reports an unanchored match anywhere in the actual output, while a pattern
the constructor rejects propagates its SyntaxError; and every other mode
produces the invalid comparison method error instead of a boolean. -/
theorem compareOutput_spec (rc : String → Except String (String → Bool))
    (actual expected : String) :
    (compareOutput rc actual expected "exact" = .ok true ↔ actual = expected) ∧
    (compareOutput rc actual expected "included" = .ok true ↔
      ∃ pre post : String, actual = pre ++ expected ++ post) ∧
    (compareOutput rc actual expected "regex" = .ok true ↔
      ∃ f, rc expected = .ok f ∧ f actual = true) ∧
    (∀ m, rc expected = .error m →
      compareOutput rc actual expected "regex" = .error m) ∧
    (∀ method : String, method ≠ "exact" → method ≠ "included" →
      method ≠ "regex" →
      compareOutput rc actual expected method =
        .error (invalidComparisonMessage method)) := by
  refine ⟨?_, ?_, ?_, ?_, ?_⟩
  · simp [compareOutput]
  · rw [show compareOutput rc actual expected "included" =
        .ok (strIncludes actual expected) from rfl]
    simp only [Except.ok.injEq]
    exact strIncludes_iff actual expected
  · rw [show compareOutput rc actual expected "regex" =
        (match rc expected with
          | .error m => .error m
          | .ok matcher => .ok (matcher actual)) from rfl]
    cases hrc : rc expected with
    | error m => simp
    | ok f =>
        simp only [Except.ok.injEq]
        constructor
        · intro h
          exact ⟨f, rfl, h⟩
        · rintro ⟨g, hg, hga⟩
          cases hg
          exact hga
  · intro m h
    rw [show compareOutput rc actual expected "regex" =
        (match rc expected with
          | .error m => .error m
          | .ok matcher => .ok (matcher actual)) from rfl, h]
  · intro method h1 h2 h3
    unfold compareOutput
    split
    · simp_all
    · simp_all
    · simp_all
    · rfl

/-- C3 witness: the included mode finds world inside hello world, a regex
whose pattern fails to compile propagates the SyntaxError, and an unknown
mode produces the invalid comparison method error. -/
theorem compareOutput_spec_witness :
    compareOutput (fun _ => .ok (fun _ => false)) "hello world" "world"
      "included" = .ok true ∧
    compareOutput (fun _ => .error "bad pattern") "abc" "(" "regex" =
      .error "bad pattern" ∧
    compareOutput (fun _ => .ok (fun _ => false)) "abc" "abc" "bogus" =
      .error (invalidComparisonMessage "bogus") :=
  ⟨(compareOutput_spec (fun _ => .ok (fun _ => false)) "hello world"
      "world").2.1.mpr ⟨"hello ", "", by decide⟩,
   (compareOutput_spec (fun _ => .error "bad pattern") "abc" "(").2.2.2.1
      "bad pattern" rfl,
   (compareOutput_spec (fun _ => .ok (fun _ => false)) "abc" "abc").2.2.2.2
      "bogus" (by decide) (by decide) (by decide)⟩

/-- C5: executeTest always returns exactly one of a captured output or an
error, never both and never by throwing; when the underlying failure
message signals a timeout (contains ETIMEDOUT) the returned error is the
distinguished timeout message, otherwise the underlying message is passed
through unchanged; on success the trimmed output is returned. -/
theorem executeTest_spec (b : ExecBehavior) :
    (((executeTest b).output.isSome = true ∧ (executeTest b).error = none) ∨
     ((executeTest b).output = none ∧ (executeTest b).error.isSome = true)) ∧
    (∀ m, b = .throws m → strIncludes m "ETIMEDOUT" = true →
      (executeTest b).error = some timeoutMessage) ∧
    (∀ m, b = .throws m → strIncludes m "ETIMEDOUT" = false →
      (executeTest b).error = some m) ∧
    (∀ s, b = .success s →
      (executeTest b).output = some (strTrim s) ∧
      (executeTest b).error = none) := by
  cases b with
  | success s =>
      refine ⟨Or.inl ⟨rfl, rfl⟩, ?_, ?_, ?_⟩ <;> intro m h <;> simp_all [executeTest]
  | throws m =>
      refine ⟨Or.inr ⟨rfl, by simp [executeTest]⟩, ?_, ?_, ?_⟩
      · intro m2 h ht
        cases h
        simp [executeTest, ht]
      · intro m2 h ht
        cases h
        simp [executeTest, ht]
      · intro s h
        cases h

/-- C5 witness: a timeout failure is rewritten to the distinguished
message, and an ordinary failure message passes through unchanged. -/
theorem executeTest_spec_witness :
    (executeTest (.throws "spawnSync /bin/sh ETIMEDOUT")).error =
      some timeoutMessage ∧
    (executeTest (.throws "Command failed: exit 1")).error =
      some "Command failed: exit 1" :=
  ⟨(executeTest_spec _).2.1 "spawnSync /bin/sh ETIMEDOUT" rfl (by decide),
   (executeTest_spec _).2.2.1 "Command failed: exit 1" rfl (by decide)⟩

lemma comparePhase_cases (test : Test) (w : TestWorld) (o : ExecutionOutcome)
    (st : RunState) :
    (∀ st2, comparePhase test w o st = .ok st2 →
       st2 = st ∨
       st2 = { st with status := "error", err_message := o.error,
                       score := failScore test.points } ∨
       st2 = { st with status := "fail",
                       err_message := some (mismatchMessage o.output),
                       score := failScore test.points }) ∧
    (∀ m st2, comparePhase test w o st = .error (m, st2) → st2 = st) := by
  constructor
  · intro st2 h
    unfold comparePhase at h
    split at h
    · simp only [Except.ok.injEq] at h
      exact Or.inr (Or.inl h.symm)
    · split at h
      · simp at h
      · simp only [Except.ok.injEq] at h
        exact Or.inl h.symm
      · simp only [Except.ok.injEq] at h
        exact Or.inr (Or.inr h.symm)
  · intro m st2 h
    unfold comparePhase at h
    split at h
    · simp at h
    · split at h
      · simp only [Except.error.injEq, Prod.mk.injEq] at h
        exact h.2.symm
      · simp at h
      · simp at h

lemma feedbackPhase_cases (fp : String) (st : RunState) :
    (∀ st2, feedbackPhase fp st = .ok st2 →
       ∃ c, st.fs = some c ∧
         st2 = { st with feedback := some c, fs := none }) ∧
    (∀ m st2, feedbackPhase fp st = .error (m, st2) →
       st.fs = none ∧ m = enoentMessage fp ∧ st2 = st) := by
  constructor
  · intro st2 h
    unfold feedbackPhase at h
    split at h
    · rename_i c hc
      simp only [Except.ok.injEq] at h
      exact ⟨c, hc, h.symm⟩
    · simp at h
  · intro m st2 h
    unfold feedbackPhase at h
    split at h
    · simp at h
    · rename_i hc
      simp only [Except.error.injEq, Prod.mk.injEq] at h
      exact ⟨hc, h.1.symm, h.2.symm⟩

lemma runTryBlock_score_status (test : Test) (fp : String) (w : TestWorld) :
    (∀ st, runTryBlock test fp w = .ok st →
       (st.status = "pass" ∧ st.score = initScore test.points) ∨
       (st.status = "fail" ∧ st.score = failScore test.points) ∨
       (st.status = "error" ∧ st.score = failScore test.points)) ∧
    (∀ m st, runTryBlock test fp w = .error (m, st) →
       st.score = initScore test.points ∨ st.score = failScore test.points) := by
  constructor
  · intro st h
    unfold runTryBlock at h
    cases hs : setupPhase test w with
    | error m => simp [hs] at h
    | ok budget =>
        simp only [hs] at h
        unfold runAfterSetup at h
        cases hc : comparePhase test w (executeTest (w.runBehavior budget))
            (preRunState test w) with
        | error e => simp [hc] at h
        | ok st2 =>
            simp only [hc] at h
            obtain ⟨c, hfs, rfl⟩ := (feedbackPhase_cases fp st2).1 st h
            rcases (comparePhase_cases test w _ _).1 st2 hc with rfl | rfl | rfl
            · exact Or.inl ⟨rfl, rfl⟩
            · exact Or.inr (Or.inr ⟨rfl, rfl⟩)
            · exact Or.inr (Or.inl ⟨rfl, rfl⟩)
  · intro m st h
    unfold runTryBlock at h
    cases hs : setupPhase test w with
    | error m0 =>
        simp only [hs, Except.error.injEq, Prod.mk.injEq] at h
        rw [← h.2]
        exact Or.inl rfl
    | ok budget =>
        simp only [hs] at h
        unfold runAfterSetup at h
        cases hc : comparePhase test w (executeTest (w.runBehavior budget))
            (preRunState test w) with
        | error e =>
            obtain ⟨m2, st2⟩ := e
            simp only [hc, Except.error.injEq, Prod.mk.injEq] at h
            rw [← h.2, (comparePhase_cases test w _ _).2 m2 st2 hc]
            exact Or.inl rfl
        | ok st3 =>
            simp only [hc] at h
            obtain ⟨hfs, hm, rfl⟩ := (feedbackPhase_cases fp st3).2 m st h
            rcases (comparePhase_cases test w _ _).1 st hc with rfl | rfl | rfl
            · exact Or.inl rfl
            · exact Or.inr rfl
            · exact Or.inr rfl

/-- C1 (amended): for a TestSpec whose declared points are truthy (present
and nonzero, value P): status pass gives score P and status fail gives
score 0; status error gives either score 0 (the error was reported by the
run phase, or the comparison had already failed when a later stage threw)
or the full P (the error arose in the catch-all handler while the score
still held its optimistic initial value: setup failure, invalid comparison
method, invalid regex pattern, or feedback-read failure on an otherwise
passing test). For a
TestSpec with absent or zero points, score is null regardless of status. -/
theorem score_spec_amended (test : Test) (dir : String) (w : TestWorld) :
    (jsTruthyNum test.points = false → (runTest test dir w).1.score = none) ∧
    (jsTruthyNum test.points = true →
      ((runTest test dir w).1.status = "pass" →
        (runTest test dir w).1.score = test.points) ∧
      ((runTest test dir w).1.status = "fail" →
        (runTest test dir w).1.score = some 0) ∧
      ((runTest test dir w).1.status = "error" →
        ((runTest test dir w).1.score = some 0 ∨
         (runTest test dir w).1.score = test.points))) := by
  have hcases := runTryBlock_score_status test (feedbackFilePath dir w.uuid) w
  cases hr : runTryBlock test (feedbackFilePath dir w.uuid) w with
  | ok st =>
      have hst := hcases.1 st hr
      have hscore : (runTest test dir w).1.score = st.score := by
        simp [runTest, hr]
      have hstatus : (runTest test dir w).1.status = st.status := by
        simp [runTest, hr]
      rcases hst with ⟨h1, h2⟩ | ⟨h1, h2⟩ | ⟨h1, h2⟩ <;>
        refine ⟨fun hfalse => ?_,
          fun htrue => ⟨fun hp => ?_, fun hf => ?_, fun he => ?_⟩⟩ <;>
        simp_all [initScore, failScore]
  | error e =>
      obtain ⟨m, st⟩ := e
      have hsc := hcases.2 m st hr
      have hscore : (runTest test dir w).1.score = st.score := by
        simp [runTest, hr]
      have hstatus : (runTest test dir w).1.status = "error" := by
        simp [runTest, hr]
      refine ⟨fun hfalse => ?_,
        fun htrue => ⟨fun hp => ?_, fun hf => ?_, fun he => ?_⟩⟩
      · rcases hsc with h | h <;> simp_all [initScore, failScore]
      · rw [hstatus] at hp
        exact absurd hp (by decide)
      · rw [hstatus] at hf
        exact absurd hf (by decide)
      · rcases hsc with h | h
        · right
          rw [hscore, h]
          simp [initScore, htrue]
        · left
          rw [hscore, h]
          simp [failScore, htrue]

/-- C1 witness: a five-point passing test earns the full five points. -/
theorem score_spec_amended_witness :
    jsTruthyNum passTest.points = true ∧
    (runTest passTest "/tmp" sampleWorld).1.status = "pass" ∧
    (runTest passTest "/tmp" sampleWorld).1.score = passTest.points :=
  ⟨by decide, by decide,
   ((score_spec_amended passTest "/tmp" sampleWorld).2 (by decide)).1
     (by decide)⟩

/-- C1 counterexample: a five-point test whose setup command throws ends
with status error yet keeps the full optimistic score of 5, not the score 0
the claim requires for an error status. -/
theorem score_on_error_counterexample :
    (runTest setupFailTest "/tmp" setupFailWorld).1.status = "error" ∧
    (runTest setupFailTest "/tmp" setupFailWorld).1.score = some 5 ∧
    (5 : Int) ≠ 0 := by
  refine ⟨by decide, by decide, by decide⟩

lemma setupPhase_ok (test : Test) (w : TestWorld)
    (h : jsTruthyStr test.setup = false ∨ w.setupThrows = none) :
    ∃ b, setupPhase test w = .ok b := by
  unfold setupPhase
  rcases h with h | h
  · simp [h]
  · split
    · rw [h]
      exact ⟨_, rfl⟩
    · exact ⟨_, rfl⟩

lemma comparePhase_ok (test : Test) (w : TestWorld) (o : ExecutionOutcome)
    (st : RunState)
    (hc : test.comparison = "exact" ∨ test.comparison = "included" ∨
      test.comparison = "regex")
    (hre : test.comparison = "regex" →
      ∃ f, w.regexCompile (test.output.getD "") = .ok f) :
    ∃ st2, comparePhase test w o st = .ok st2 ∧ st2.fs = st.fs ∧
      st2.feedback = st.feedback := by
  unfold comparePhase
  split
  · exact ⟨_, rfl, rfl, rfl⟩
  · have hb : ∃ b, compareOutput w.regexCompile (o.output.getD "")
        (test.output.getD "") test.comparison = .ok b := by
      rcases hc with h | h | h
      · rw [h]
        exact ⟨_, rfl⟩
      · rw [h]
        exact ⟨_, rfl⟩
      · obtain ⟨f, hf⟩ := hre h
        rw [h]
        refine ⟨f (o.output.getD ""), ?_⟩
        rw [show compareOutput w.regexCompile (o.output.getD "")
            (test.output.getD "") "regex" =
            (match w.regexCompile (test.output.getD "") with
              | .error m => .error m
              | .ok matcher => .ok (matcher (o.output.getD ""))) from rfl, hf]
    obtain ⟨b, hb⟩ := hb
    rw [hb]
    cases b
    · exact ⟨_, rfl, rfl, rfl⟩
    · exact ⟨_, rfl, rfl, rfl⟩

/-- C7: when a test has a truthy setup command and that command throws with
message m, the test ends in status error with err_message m, content stays
null, no execution time is recorded, no feedback file exists, and the
result is the same whatever the run command, the regular expression engine
or the feedback interactions would have done: the run, compare and
feedback-collection stages are never attempted. -/
theorem setup_failure_spec (test : Test) (dir : String) (w : TestWorld)
    (m : String) (hs : jsTruthyStr test.setup = true)
    (ht : w.setupThrows = some m) :
    (runTest test dir w).1.status = "error" ∧
    (runTest test dir w).1.err_message = some m ∧
    (runTest test dir w).1.content = none ∧
    (runTest test dir w).1.execution_time = none ∧
    (runTest test dir w).2 = none ∧
    ∀ w2 : TestWorld, w2.setupThrows = some m →
      runTest test dir w2 = runTest test dir w := by
  have key : ∀ w3 : TestWorld, w3.setupThrows = some m →
      runTest test dir w3 =
        ({ name := test.name, status := "error", err_message := some m,
           content := none,
           test_code := test.run ++ " <stdin>" ++ test.input.getD "",
           filename := "", line_no := 0, execution_time := none,
           score := initScore test.points }, none) := by
    intro w3 h3
    simp [runTest, runTryBlock, setupPhase, hs, h3, initState, jsStrOrNull]
  refine ⟨?_, ?_, ?_, ?_, ?_, ?_⟩
  · rw [key w ht]
  · rw [key w ht]
  · rw [key w ht]
  · rw [key w ht]
  · rw [key w ht]
  · intro w2 h2
    rw [key w2 h2, key w ht]

/-- C7 witness: a concrete five-point test whose setup command fails ends
in status error with no recorded execution time. -/
theorem setup_failure_spec_witness :
    (runTest setupFailTest "/tmp" setupFailWorld).1.status = "error" ∧
    (runTest setupFailTest "/tmp" setupFailWorld).1.execution_time = none :=
  ⟨(setup_failure_spec setupFailTest "/tmp" setupFailWorld
      "Command failed: ./setup.sh" (by decide) rfl).1,
   (setup_failure_spec setupFailTest "/tmp" setupFailWorld
      "Command failed: ./setup.sh" (by decide) rfl).2.2.2.1⟩

/-- C2 (amended): whenever the run phase is reached (no setup or a
succeeding setup) and the comparison stage cannot throw — the mode is one
of the three declared ones and, for regex mode, the expected pattern
compiles — a run command that never creates the feedback file makes the
feedback read fail, and the whole test is reported as status error with
err_message replaced by the read failure message — whatever status and
message the run and compare stages had produced, including a run that
exits 0 with matching output. When the comparator itself throws (an
invalid regex pattern), the feedback file is never read and err_message is
the SyntaxError instead (see the counterexample). -/
theorem feedback_overwrite_spec (test : Test) (dir : String) (w : TestWorld)
    (hsetup : jsTruthyStr test.setup = false ∨ w.setupThrows = none)
    (hcomp : test.comparison = "exact" ∨ test.comparison = "included" ∨
      test.comparison = "regex")
    (hre : test.comparison = "regex" →
      ∃ f, w.regexCompile (test.output.getD "") = .ok f)
    (hfs : w.runWritesFeedback = none) :
    (runTest test dir w).1.status = "error" ∧
    (runTest test dir w).1.err_message =
      some (enoentMessage (feedbackFilePath dir w.uuid)) ∧
    (runTest test dir w).1.content = none := by
  obtain ⟨b, hb⟩ := setupPhase_ok test w hsetup
  obtain ⟨st2, hok, hfs2, hfb2⟩ := comparePhase_ok test w
    (executeTest (w.runBehavior b)) (preRunState test w) hcomp hre
  have hfsn : st2.fs = none := by
    rw [hfs2]
    simpa [preRunState, initState] using hfs
  have hfbn : st2.feedback = none := by
    rw [hfb2]
    simp [preRunState, initState]
  have htry : runTryBlock test (feedbackFilePath dir w.uuid) w =
      .error (enoentMessage (feedbackFilePath dir w.uuid), st2) := by
    unfold runTryBlock runAfterSetup feedbackPhase
    simp only [hb, hok, hfsn]
  refine ⟨?_, ?_, ?_⟩ <;> simp [runTest, htry, hfbn, jsStrOrNull]

/-- C2 witness: a passing run (exit 0, matching output) that never writes
the feedback file still ends in status error with the read failure
message. -/
theorem feedback_overwrite_spec_witness :
    (runTest passTest "/tmp" noFeedbackWorld).1.status = "error" ∧
    (runTest passTest "/tmp" noFeedbackWorld).1.err_message =
      some (enoentMessage (feedbackFilePath "/tmp" noFeedbackWorld.uuid)) :=
  ⟨(feedback_overwrite_spec passTest "/tmp" noFeedbackWorld
      (Or.inl (by decide)) (Or.inl rfl) (fun h => absurd h (by decide))
      rfl).1,
   (feedback_overwrite_spec passTest "/tmp" noFeedbackWorld
      (Or.inl (by decide)) (Or.inl rfl) (fun h => absurd h (by decide))
      rfl).2.1⟩

/-- C2 counterexample: a regex-mode test whose expected pattern does not
compile reaches the run phase (exit 0) and never creates the feedback
file, yet the feedback read is not what is reported: the comparator throws
first, so err_message is the SyntaxError of the regular expression
constructor, not the read failure message the claim requires. -/
theorem feedback_overwrite_counterexample :
    (runTest badRegexTest "/tmp" badRegexWorld).1.status = "error" ∧
    (runTest badRegexTest "/tmp" badRegexWorld).1.err_message =
      some syntaxErrorMessage ∧
    syntaxErrorMessage ≠
      enoentMessage (feedbackFilePath "/tmp" badRegexWorld.uuid) := by
  refine ⟨by decide, by decide, by decide⟩

/-- C10 (amended): when the run phase is reached, the comparison stage
cannot throw (the mode is declared and, for regex mode, the expected
pattern compiles), and the run command writes a zero-byte feedback file,
the resulting content field is null (not the empty string) and the
feedback file has been deleted from disk by the time the TestResult is
returned. When the comparator throws (an invalid regex pattern), the file
is left on disk instead (see the counterexample). -/
theorem empty_feedback_spec (test : Test) (dir : String) (w : TestWorld)
    (hsetup : jsTruthyStr test.setup = false ∨ w.setupThrows = none)
    (hcomp : test.comparison = "exact" ∨ test.comparison = "included" ∨
      test.comparison = "regex")
    (hre : test.comparison = "regex" →
      ∃ f, w.regexCompile (test.output.getD "") = .ok f)
    (hfs : w.runWritesFeedback = some "") :
    (runTest test dir w).1.content = none ∧
    (runTest test dir w).2 = none := by
  obtain ⟨b, hb⟩ := setupPhase_ok test w hsetup
  obtain ⟨st2, hok, hfs2, hfb2⟩ := comparePhase_ok test w
    (executeTest (w.runBehavior b)) (preRunState test w) hcomp hre
  have hfse : st2.fs = some "" := by
    rw [hfs2]
    simpa [preRunState, initState] using hfs
  have htry : runTryBlock test (feedbackFilePath dir w.uuid) w =
      .ok { st2 with feedback := some "", fs := none } := by
    unfold runTryBlock runAfterSetup feedbackPhase
    simp only [hb, hok, hfse]
  refine ⟨?_, ?_⟩ <;> simp [runTest, htry, jsStrOrNull]

/-- C10 witness: a concrete passing test whose run command writes an empty
feedback file reports null content and leaves no file on disk. -/
theorem empty_feedback_spec_witness :
    (runTest passTest "/tmp" emptyFeedbackWorld).1.content = none ∧
    (runTest passTest "/tmp" emptyFeedbackWorld).2 = none :=
  ⟨(empty_feedback_spec passTest "/tmp" emptyFeedbackWorld
      (Or.inl (by decide)) (Or.inl rfl) (fun h => absurd h (by decide))
      rfl).1,
   (empty_feedback_spec passTest "/tmp" emptyFeedbackWorld
      (Or.inl (by decide)) (Or.inl rfl) (fun h => absurd h (by decide))
      rfl).2⟩

/-- C10 counterexample: a regex-mode test whose expected pattern does not
compile and whose run command writes a zero-byte feedback file throws in
the comparator before the read and delete lines, so the feedback file is
still on disk when the TestResult is returned, contradicting the deletion
the claim asserts for every such test. -/
theorem empty_feedback_counterexample :
    (runTest badRegexTest "/tmp" badRegexFeedbackWorld).2 = some "" ∧
    (some "" : Option String) ≠ none := by
  refine ⟨by decide, by decide⟩

/-- C6: the total per-test budget is the declared timeout in minutes times
60000; with a truthy setup command the run phase receives exactly the total
budget minus the elapsed setup time, with no floor: every integer value,
negative ones included, is attainable, and the result of a test depends on
the behaviour of the run command only at exactly that budget. -/
theorem timeout_budget_spec (test : Test) (dir : String) (w : TestWorld)
    (hs : jsTruthyStr test.setup = true) :
    totalBudgetMs test = test.timeout * 60 * 1000 ∧
    runPhaseBudget test w = totalBudgetMs test - w.setupElapsed ∧
    (∀ b : Int, ∃ t : Test, ∃ w2 : TestWorld,
       jsTruthyStr t.setup = true ∧ runPhaseBudget t w2 = b) ∧
    (∀ w2 : TestWorld, w2.setupThrows = w.setupThrows →
       w2.setupElapsed = w.setupElapsed → w2.uuid = w.uuid →
       w2.runElapsed = w.runElapsed →
       w2.runWritesFeedback = w.runWritesFeedback →
       w2.regexCompile = w.regexCompile →
       w2.runBehavior (runPhaseBudget test w) =
         w.runBehavior (runPhaseBudget test w) →
       runTest test dir w2 = runTest test dir w) := by
  refine ⟨rfl, by simp [runPhaseBudget, hs], ?_, ?_⟩
  · intro b
    refine ⟨{ passTest with setup := "./setup.sh", timeout := 0 },
            { sampleWorld with setupElapsed := -b }, by decide, ?_⟩
    simp [runPhaseBudget, totalBudgetMs, jsTruthyStr, sampleWorld]
  · intro w2 h1 h2 h3 h4 h5 h6 h7
    have hbud : runPhaseBudget test w = totalBudgetMs test - w.setupElapsed := by
      simp [runPhaseBudget, hs]
    rw [hbud] at h7
    cases hst : w.setupThrows with
    | some m =>
        have h1m : w2.setupThrows = some m := by rw [h1, hst]
        simp [runTest, runTryBlock, setupPhase, hs, hst, h1m, h3]
    | none =>
        have h1n : w2.setupThrows = none := by rw [h1, hst]
        have hpre : preRunState test w2 = preRunState test w := by
          simp [preRunState, h4, h5]
        have hcp : ∀ o st, comparePhase test w2 o st =
            comparePhase test w o st := by
          intro o st
          unfold comparePhase
          rw [h6]
        simp only [runTest, runTryBlock, runAfterSetup, setupPhase, hs, hst,
          h1n, if_true, h2, h3]
        simp only [hcp, hpre, h7]

/-- C6 witness: a one-minute test whose setup takes 70 seconds hands the
run phase a negative budget of -10000 milliseconds. -/
theorem timeout_budget_spec_witness :
    runPhaseBudget setupFailTest slowSetupWorld =
      totalBudgetMs setupFailTest - slowSetupWorld.setupElapsed ∧
    runPhaseBudget setupFailTest slowSetupWorld = -10000 :=
  ⟨(timeout_budget_spec setupFailTest "/tmp" slowSetupWorld (by decide)).2.1,
   by decide⟩

lemma suiteStep_testResults (dir : String) (s : SuiteState)
    (tw : Test × TestWorld) :
    (suiteStep dir s tw).testResults =
      s.testResults ++ [(runTest tw.1 dir tw.2).1] := by
  simp only [suiteStep]
  split <;> split <;> rfl

lemma suiteStep_status (dir : String) (s : SuiteState)
    (tw : Test × TestWorld) :
    (suiteStep dir s tw).status =
      if (runTest tw.1 dir tw.2).1.status != "pass" then "error"
      else s.status := by
  simp only [suiteStep]
  split <;> split <;> rfl

lemma suiteStep_avail (dir : String) (s : SuiteState)
    (tw : Test × TestWorld) :
    (suiteStep dir s tw).availablePoints =
      s.availablePoints +
        (if jsTruthyNum tw.1.points then tw.1.points.getD 0 else 0) := by
  simp only [suiteStep]
  split <;> split <;> simp

lemma suiteStep_acc (dir : String) (s : SuiteState)
    (tw : Test × TestWorld) :
    (suiteStep dir s tw).accumulatedPoints =
      s.accumulatedPoints +
        (if jsTruthyNum tw.1.points then
          (runTest tw.1 dir tw.2).1.score.getD 0 else 0) := by
  simp only [suiteStep]
  split <;> split <;> simp_all

lemma suiteStep_hasPoints (dir : String) (s : SuiteState)
    (tw : Test × TestWorld) :
    (suiteStep dir s tw).hasPoints =
      (s.hasPoints || jsTruthyNum tw.1.points) := by
  simp only [suiteStep]
  split <;> split <;> simp_all

lemma suiteFoldl_testResults (dir : String) (ts : List (Test × TestWorld)) :
    ∀ s : SuiteState,
      (List.foldl (suiteStep dir) s ts).testResults =
        s.testResults ++ ts.map (fun tw => (runTest tw.1 dir tw.2).1) := by
  induction ts with
  | nil => intro s; simp
  | cons tw rest ih =>
      intro s
      rw [List.foldl_cons, ih, suiteStep_testResults]
      simp

lemma suiteFoldl_status (dir : String) (ts : List (Test × TestWorld)) :
    ∀ s : SuiteState,
      (List.foldl (suiteStep dir) s ts).status =
        if (ts.map (fun tw => (runTest tw.1 dir tw.2).1)).all
            (fun r => r.status == "pass") then s.status
        else "error" := by
  induction ts with
  | nil => intro s; simp
  | cons tw rest ih =>
      intro s
      rw [List.foldl_cons, ih, suiteStep_status]
      by_cases h : (runTest tw.1 dir tw.2).1.status = "pass"
      · have hbne : ((runTest tw.1 dir tw.2).1.status != "pass") = false := by
          simp [bne, h]
        have hbeq : ((runTest tw.1 dir tw.2).1.status == "pass") = true := by
          simp [h]
        rw [hbne, List.map_cons, List.all_cons, hbeq, Bool.true_and]
        simp
      · have hbne : ((runTest tw.1 dir tw.2).1.status != "pass") = true := by
          simp [bne, h]
        have hbeq : ((runTest tw.1 dir tw.2).1.status == "pass") = false := by
          simp [h]
        rw [hbne, List.map_cons, List.all_cons, hbeq, Bool.false_and]
        simp

lemma suiteFoldl_avail (dir : String) (ts : List (Test × TestWorld)) :
    ∀ s : SuiteState,
      (List.foldl (suiteStep dir) s ts).availablePoints =
        s.availablePoints +
          (ts.map (fun tw =>
            if jsTruthyNum tw.1.points then tw.1.points.getD 0 else 0)).sum := by
  induction ts with
  | nil => intro s; simp
  | cons tw rest ih =>
      intro s
      rw [List.foldl_cons, ih, suiteStep_avail]
      simp [add_assoc]

lemma suiteFoldl_acc (dir : String) (ts : List (Test × TestWorld)) :
    ∀ s : SuiteState,
      (List.foldl (suiteStep dir) s ts).accumulatedPoints =
        s.accumulatedPoints +
          (ts.map (fun tw =>
            if jsTruthyNum tw.1.points then
              (runTest tw.1 dir tw.2).1.score.getD 0 else 0)).sum := by
  induction ts with
  | nil => intro s; simp
  | cons tw rest ih =>
      intro s
      rw [List.foldl_cons, ih, suiteStep_acc]
      simp [add_assoc]

lemma suiteFoldl_hasPoints (dir : String) (ts : List (Test × TestWorld)) :
    ∀ s : SuiteState,
      (List.foldl (suiteStep dir) s ts).hasPoints =
        (s.hasPoints || ts.any (fun tw => jsTruthyNum tw.1.points)) := by
  induction ts with
  | nil => intro s; simp
  | cons tw rest ih =>
      intro s
      rw [List.foldl_cons, ih, suiteStep_hasPoints]
      simp [Bool.or_assoc]

/-- C4: the suite status in the report is pass exactly when every produced
TestResult has status pass; otherwise it is error (never fail); and once
the status of a prefix of the suite is error, appending further tests can
never turn it back. -/
theorem suite_status_spec (e : Option String) (ts : List (Test × TestWorld)) :
    ((runAll e ts).report.status = "pass" ↔
      ∀ r ∈ (runAll e ts).report.tests, r.status = "pass") ∧
    ((runAll e ts).report.status = "pass" ∨
      (runAll e ts).report.status = "error") ∧
    (∀ ts2, (runAll e ts).report.status = "error" →
      (runAll e (ts ++ ts2)).report.status = "error") := by
  have hs := suiteFoldl_status (createFeedbackDir e) ts initialSuiteState
  have hr := suiteFoldl_testResults (createFeedbackDir e) ts initialSuiteState
  refine ⟨?_, ?_, ?_⟩
  · rw [show (runAll e ts).report.status =
        (List.foldl (suiteStep (createFeedbackDir e)) initialSuiteState
          ts).status from rfl,
      show (runAll e ts).report.tests =
        (List.foldl (suiteStep (createFeedbackDir e)) initialSuiteState
          ts).testResults from rfl, hs, hr]
    simp only [initialSuiteState]
    constructor
    · intro h r hr2
      by_cases hall : (ts.map
          (fun tw => (runTest tw.1 (createFeedbackDir e) tw.2).1)).all
          (fun r => r.status == "pass")
      · have := List.all_eq_true.mp hall r (by simpa using hr2)
        simpa using this
      · simp [hall] at h
    · intro h
      have hall : (ts.map
          (fun tw => (runTest tw.1 (createFeedbackDir e) tw.2).1)).all
          (fun r => r.status == "pass") = true := by
        rw [List.all_eq_true]
        intro r hr2
        simpa using h r (by simpa using hr2)
      simp [hall]
  · rw [show (runAll e ts).report.status =
        (List.foldl (suiteStep (createFeedbackDir e)) initialSuiteState
          ts).status from rfl, hs]
    split
    · exact Or.inl rfl
    · exact Or.inr rfl
  · intro ts2 h
    rw [show (runAll e ts).report.status =
        (List.foldl (suiteStep (createFeedbackDir e)) initialSuiteState
          ts).status from rfl, hs] at h
    rw [show (runAll e (ts ++ ts2)).report.status =
        (List.foldl (suiteStep (createFeedbackDir e)) initialSuiteState
          (ts ++ ts2)).status from rfl,
      suiteFoldl_status, List.map_append, List.all_append]
    by_cases hall : (ts.map
        (fun tw => (runTest tw.1 (createFeedbackDir e) tw.2).1)).all
        (fun r => r.status == "pass")
    · rw [if_pos hall] at h
      simp [initialSuiteState] at h
    · simp [hall]

/-- C4 witness: a suite with one failing test has status error, and
appending a passing test leaves it error. -/
theorem suite_status_spec_witness :
    (runAll none ([(setupFailTest, setupFailWorld)] ++
      [(passTest, sampleWorld)])).report.status = "error" :=
  (suite_status_spec none [(setupFailTest, setupFailWorld)]).2.2
    [(passTest, sampleWorld)] (by decide)

lemma pointsSum_eq (ts : List (Test × TestWorld)) :
    (ts.map (fun tw =>
      if jsTruthyNum tw.1.points then tw.1.points.getD 0 else 0)).sum =
    ((ts.filter (fun tw => tw.1.points.isSome)).map
      (fun tw => tw.1.points.getD 0)).sum := by
  induction ts with
  | nil => rfl
  | cons tw rest ih =>
      rw [List.map_cons, List.sum_cons, List.filter_cons]
      cases hp : tw.1.points with
      | none =>
          rw [if_neg (show ¬(jsTruthyNum none = true) by simp [jsTruthyNum]),
            if_neg (show ¬((none : Option Int).isSome = true) by simp),
            zero_add]
          exact ih
      | some v =>
          by_cases hv : v = 0
          · subst hv
            rw [if_neg (show ¬(jsTruthyNum (some (0 : Int)) = true) by
                simp [jsTruthyNum]),
              if_pos (show (some (0 : Int)).isSome = true by simp),
              List.map_cons, List.sum_cons, hp]
            simp [ih]
          · rw [if_pos (show jsTruthyNum (some v) = true by
                simp [jsTruthyNum, hv]),
              if_pos (show (some v).isSome = true by simp),
              List.map_cons, List.sum_cons, hp, ih]

/-- C8: the max_score of the report is the sum of points over exactly the
specs that declared them; the report holds one TestResult per TestSpec, in
input order; and a spec without points inserted anywhere contributes
nothing to the accumulated or available totals. -/
theorem suite_scoring_spec (e : Option String)
    (ts : List (Test × TestWorld)) :
    ((runAll e ts).report.max_score =
      ((ts.filter (fun tw => tw.1.points.isSome)).map
        (fun tw => tw.1.points.getD 0)).sum) ∧
    ((runAll e ts).report.tests =
      ts.map (fun tw => (runTest tw.1 (createFeedbackDir e) tw.2).1)) ∧
    ((runAll e ts).report.tests.length = ts.length) ∧
    (∀ (tw : Test × TestWorld) (ts2 : List (Test × TestWorld)),
      tw.1.points = none →
      (runAll e (ts ++ tw :: ts2)).accumulatedPoints =
        (runAll e (ts ++ ts2)).accumulatedPoints ∧
      (runAll e (ts ++ tw :: ts2)).availablePoints =
        (runAll e (ts ++ ts2)).availablePoints) := by
  refine ⟨?_, ?_, ?_, ?_⟩
  · rw [show (runAll e ts).report.max_score =
        (List.foldl (suiteStep (createFeedbackDir e)) initialSuiteState
          ts).availablePoints from rfl, suiteFoldl_avail, pointsSum_eq]
    simp [initialSuiteState]
  · rw [show (runAll e ts).report.tests =
        (List.foldl (suiteStep (createFeedbackDir e)) initialSuiteState
          ts).testResults from rfl, suiteFoldl_testResults]
    simp [initialSuiteState]
  · rw [show (runAll e ts).report.tests =
        (List.foldl (suiteStep (createFeedbackDir e)) initialSuiteState
          ts).testResults from rfl, suiteFoldl_testResults]
    simp [initialSuiteState]
  · intro tw ts2 hp
    have htr : jsTruthyNum tw.1.points = false := by rw [hp]; rfl
    constructor
    · rw [show (runAll e (ts ++ tw :: ts2)).accumulatedPoints =
          (List.foldl (suiteStep (createFeedbackDir e)) initialSuiteState
            (ts ++ tw :: ts2)).accumulatedPoints from rfl, suiteFoldl_acc,
        show (runAll e (ts ++ ts2)).accumulatedPoints =
          (List.foldl (suiteStep (createFeedbackDir e)) initialSuiteState
            (ts ++ ts2)).accumulatedPoints from rfl, suiteFoldl_acc]
      simp [htr]
    · rw [show (runAll e (ts ++ tw :: ts2)).availablePoints =
          (List.foldl (suiteStep (createFeedbackDir e)) initialSuiteState
            (ts ++ tw :: ts2)).availablePoints from rfl, suiteFoldl_avail,
        show (runAll e (ts ++ ts2)).availablePoints =
          (List.foldl (suiteStep (createFeedbackDir e)) initialSuiteState
            (ts ++ ts2)).availablePoints from rfl, suiteFoldl_avail]
      simp [htr]

/-- C8 witness: inserting a pointless test between two suites leaves the
accumulated total unchanged. -/
theorem suite_scoring_spec_witness :
    (runAll none ([(passTest, sampleWorld)] ++
      (noPointsTest, sampleWorld) :: [])).accumulatedPoints =
    (runAll none ([(passTest, sampleWorld)] ++ [])).accumulatedPoints :=
  ((suite_scoring_spec none [(passTest, sampleWorld)]).2.2.2
    (noPointsTest, sampleWorld) [] rfl).1

/-- C9: a TestSpec with points declared as 0 behaves exactly like one with
no points field: runTest returns the identical TestResult, its score is
null and never the number 0, it contributes nothing to the accumulated or
available totals, and on its own it does not make the suite emit the
points summary. -/
theorem points_zero_spec (test : Test) (dir : String) (w : TestWorld)
    (e : Option String) (ts : List (Test × TestWorld))
    (hp : test.points = some 0) :
    runTest test dir w = runTest { test with points := none } dir w ∧
    (runTest test dir w).1.score = none ∧
    (runAll e ((test, w) :: ts)).accumulatedPoints =
      (runAll e ts).accumulatedPoints ∧
    (runAll e ((test, w) :: ts)).availablePoints =
      (runAll e ts).availablePoints ∧
    (runAll e [(test, w)]).hasPoints = false ∧
    (runAll e [(test, w)]).pointsSummary = none := by
  have htr : jsTruthyNum test.points = false := by rw [hp]; rfl
  refine ⟨?_, ?_, ?_, ?_, ?_, ?_⟩
  · obtain ⟨n, su, ru, inp, out, tmo, pts, cmp⟩ := test
    simp only at hp
    subst hp
    rfl
  · have hcases := runTryBlock_score_status test
      (feedbackFilePath dir w.uuid) w
    cases hr : runTryBlock test (feedbackFilePath dir w.uuid) w with
    | ok st =>
        have hst := hcases.1 st hr
        have hscore : (runTest test dir w).1.score = st.score := by
          simp [runTest, hr]
        rcases hst with ⟨_, h2⟩ | ⟨_, h2⟩ | ⟨_, h2⟩ <;> rw [hscore, h2] <;>
          simp [initScore, failScore, htr]
    | error ee =>
        obtain ⟨m, st⟩ := ee
        have hst := hcases.2 m st hr
        have hscore : (runTest test dir w).1.score = st.score := by
          simp [runTest, hr]
        rcases hst with h2 | h2 <;> rw [hscore, h2] <;>
          simp [initScore, failScore, htr]
  · rw [show (runAll e ((test, w) :: ts)).accumulatedPoints =
        (List.foldl (suiteStep (createFeedbackDir e)) initialSuiteState
          ((test, w) :: ts)).accumulatedPoints from rfl, suiteFoldl_acc,
      show (runAll e ts).accumulatedPoints =
        (List.foldl (suiteStep (createFeedbackDir e)) initialSuiteState
          ts).accumulatedPoints from rfl, suiteFoldl_acc]
    simp [htr]
  · rw [show (runAll e ((test, w) :: ts)).availablePoints =
        (List.foldl (suiteStep (createFeedbackDir e)) initialSuiteState
          ((test, w) :: ts)).availablePoints from rfl, suiteFoldl_avail,
      show (runAll e ts).availablePoints =
        (List.foldl (suiteStep (createFeedbackDir e)) initialSuiteState
          ts).availablePoints from rfl, suiteFoldl_avail]
    simp [htr]
  · rw [show (runAll e [(test, w)]).hasPoints =
        (List.foldl (suiteStep (createFeedbackDir e)) initialSuiteState
          [(test, w)]).hasPoints from rfl, suiteFoldl_hasPoints]
    simp [htr, initialSuiteState]
  · have hhp : (List.foldl (suiteStep (createFeedbackDir e))
        initialSuiteState [(test, w)]).hasPoints = false := by
      rw [suiteFoldl_hasPoints]
      simp [htr, initialSuiteState]
    simp [runAll, hhp, suiteStep_hasPoints, htr, initialSuiteState]

/-- C9 witness: a concrete zero-point test scores null and alone does not
trigger the points summary. -/
theorem points_zero_spec_witness :
    (runTest zeroPointsTest "/tmp" sampleWorld).1.score = none ∧
    (runAll none [(zeroPointsTest, sampleWorld)]).pointsSummary = none :=
  ⟨(points_zero_spec zeroPointsTest "/tmp" sampleWorld none [] rfl).2.1,
   (points_zero_spec zeroPointsTest "/tmp" sampleWorld none []
      rfl).2.2.2.2.2⟩
